import Mathlib

/-!
Verification of the tiered (primary/archive) query federation engine.

The embedding follows the two source modules:
  * `utils/archiveQuery.js`  — threshold policy, tier-selection predicates,
    archive tier executors and the cold-store reference resolvers;
  * the unified-query module — date extraction, query splitting and the three
    federated query functions (sales / payments / dealer requests).

Modelling conventions:
  * Dates are integers (milliseconds since the epoch).  The archive threshold
    (`getArchiveThresholdDate`, wall clock minus two years) is passed as an
    explicit parameter `T` since it is a pure function of call time.
  * A Mongo-style filter is split into its designated-timestamp sub-predicate,
    its `createdAt` sub-predicate (the fallback field used by the payment and
    dealer-request kinds) and an opaque boolean predicate for every other field.
  * A datastore tier is a list of records plus a reachability flag: when the
    flag is false every store operation of that tier raises, which is the
    `try/catch` granularity of the unified functions (an unreachable or
    erroring tier).
  * JavaScript truthiness of numeric `skip`/`limit` arguments is kept: a zero
    limit is falsy, so the archive executor applies no limit at all.
-/

namespace UnifiedQuery

/-- Comparison bounds that may appear in a date sub-predicate
(`$gte`, `$lte`, `$gt`, `$lt`); absent operators are `none`. -/
structure DateBounds where
  gte : Option Int
  lte : Option Int
  gt : Option Int
  lt : Option Int
deriving Repr, DecidableEq

/-- The designated timestamp sub-predicate of a filter: either a bare date
(exact point) or an object of comparison bounds. -/
inductive DatePred where
  | single (d : Int)
  | range (b : DateBounds)
deriving Repr, DecidableEq

/-- A record as seen by the federation layer: `ts` is the designated timestamp
field (`saleDate` / `transactionDate` / `requestedAt`, possibly absent),
`createdAt` is always present, `id` distinguishes records. -/
structure QRec where
  ts : Option Int
  createdAt : Int
  id : Nat
deriving Repr, DecidableEq

/-- Sort / merge key of a record: the designated timestamp field, falling back
to `createdAt` when absent (the `a.saleDate || a.createdAt` comparator key). -/
def qkey (r : QRec) : Int := r.ts.getD r.createdAt

/-- A caller filter: designated-timestamp sub-predicate, `createdAt`
sub-predicate, and an opaque predicate standing for all other fields
(they pass through the engine unexamined). -/
structure Filter where
  date : Option DatePred
  dateCreated : Option DatePred
  other : QRec → Bool

/-- Mongo semantics of one bounds object against a present value: every
present operator must hold. -/
def boundsMatch (b : DateBounds) (v : Int) : Bool :=
  (match b.gte with | some x => decide (x ≤ v) | none => true) &&
  (match b.gt with | some x => decide (x < v) | none => true) &&
  (match b.lte with | some x => decide (v ≤ x) | none => true) &&
  (match b.lt with | some x => decide (v < x) | none => true)

/-- Mongo semantics of a date sub-predicate against an optional field value:
no sub-predicate matches everything; a present sub-predicate never matches a
record missing the field. -/
def dateMatches : Option DatePred → Option Int → Bool
  | none, _ => true
  | some _, none => false
  | some (.single d), some v => decide (v = d)
  | some (.range b), some v => boundsMatch b v

/-- Whether a record satisfies a whole filter. -/
def filterMatches (f : Filter) (r : QRec) : Bool :=
  dateMatches f.date r.ts && dateMatches f.dateCreated (some r.createdAt) && f.other r

/-- Date-range extraction (`extractDateRange`): `none` when the field is
absent from the filter; a bare date gives `start = end = value`; for a bounds
object `$gte` then `$gt` assign the start (so `$gt` wins when both are given)
and `$lte` then `$lt` assign the end (`$lt` wins) — the operator itself, and
with it exclusivity, is discarded. -/
def extractDateRange (dq : Option DatePred) : Option (Option Int × Option Int) :=
  match dq with
  | none => none
  | some (.single d) => some (some d, some d)
  | some (.range b) =>
    let s := match b.gt with | some g => some g | none => b.gte
    let e := match b.lt with | some l => some l | none => b.lte
    some (s, e)

/-- Tier selection for the archive (`shouldQueryArchive`): query the cold
store when there is no date filter at all, when the end is below the
threshold, or when the start is below the threshold. -/
def shouldQueryArchive (T : Int) (s e : Option Int) : Bool :=
  if s.isNone && e.isNone then true
  else if e.any (fun ev => decide (ev < T)) then true
  else if s.any (fun sv => decide (sv < T)) then true
  else false

/-- Tier selection for the primary store (`shouldQueryPrimary`): query the hot
store when there is no date filter at all, when the start is at or above the
threshold, or when the end is at or above the threshold. -/
def shouldQueryPrimary (T : Int) (s e : Option Int) : Bool :=
  if s.isNone && e.isNone then true
  else if s.any (fun sv => decide (T ≤ sv)) then true
  else if e.any (fun ev => decide (T ≤ ev)) then true
  else false

/-- Start component of an extracted range, `none` when extraction failed
(the optional-chaining access of the source). -/
def extractedStart (dr : Option (Option Int × Option Int)) : Option Int :=
  match dr with
  | some p => p.1
  | none => none

/-- End component of an extracted range, `none` when extraction failed. -/
def extractedEnd (dr : Option (Option Int × Option Int)) : Option Int :=
  match dr with
  | some p => p.2
  | none => none

/-- Query splitting (`splitQueryByDate`): returns the primary sub-filter, the
archive sub-filter and the `queryBoth` flag.  When both tiers are selected the
date range is rewritten: primary gets `$gte max(start, T)` (and `$lte end` if
an end was given), archive gets `$lt min(end, T)` (and `$gte start` if a start
was given).  When only one tier is selected the other sub-filter has its date
field deleted and the selected one keeps the original filter verbatim. -/
def splitQueryByDate (T : Int) (query : Filter) : Filter × Filter × Bool :=
  let dr := extractDateRange query.date
  let s := extractedStart dr
  let e := extractedEnd dr
  let queryBoth := shouldQueryArchive T s e && shouldQueryPrimary T s e
  match dr with
  | none => (query, query, queryBoth)
  | some p =>
    if queryBoth then
      match p.1, p.2 with
      | some sv, some ev =>
        (Filter.mk (some (.range (DateBounds.mk (some (if sv < T then T else sv)) (some ev) none none)))
          query.dateCreated query.other,
         Filter.mk (some (.range (DateBounds.mk (some sv) none none (some (if ev < T then ev else T)))))
          query.dateCreated query.other,
         queryBoth)
      | some sv, none =>
        (Filter.mk (some (.range (DateBounds.mk (some (if sv < T then T else sv)) none none none)))
          query.dateCreated query.other,
         Filter.mk (some (.range (DateBounds.mk none none none (some T))))
          query.dateCreated query.other,
         queryBoth)
      | none, some ev =>
        (Filter.mk (some (.range (DateBounds.mk none (some ev) none none)))
          query.dateCreated query.other,
         Filter.mk (some (.range (DateBounds.mk none none none (some (if ev < T then ev else T)))))
          query.dateCreated query.other,
         queryBoth)
      | none, none => (query, query, queryBoth)
    else
      if shouldQueryArchive T s e then
        (Filter.mk none query.dateCreated query.other, query, queryBoth)
      else
        (query, Filter.mk none query.dateCreated query.other, queryBoth)

/-- Requested sort on the designated timestamp key.  The default sorts used by
the source (for example `saleDate: -1, createdAt: -1`) are descending. -/
inductive SortDir where
  | asc
  | desc
deriving Repr, DecidableEq

/-- Comparator for the per-tier native sort in the requested direction. -/
def sortLe (dir : SortDir) (a b : QRec) : Bool :=
  match dir with
  | .asc => decide (qkey a ≤ qkey b)
  | .desc => decide (qkey b ≤ qkey a)

/-- Comparator of the merge step (`dateB - dateA` on the designated timestamp
with `createdAt` fallback): always descending, whatever sort the caller asked
for. -/
def mergeLe (a b : QRec) : Bool := decide (qkey b ≤ qkey a)

/-- Insert an element into a list, before the first element it compares
at-or-before. -/
def insertBy (le : α → α → Bool) (a : α) : List α → List α
  | [] => [a]
  | b :: l => if le a b then a :: b :: l else b :: insertBy le a l

/-- Comparison sort used to model the stores' sorted retrieval and the
JavaScript in-memory `Array.sort`. -/
def sortBy (le : α → α → Bool) : List α → List α
  | [] => []
  | a :: l => insertBy le a (sortBy le l)

/-- One datastore tier: its records and a reachability flag.  When `ok` is
false every store operation of the tier raises, which the unified functions
catch per tier. -/
structure Tier where
  data : List QRec
  ok : Bool

/-- Matched count of a tier (`countDocuments` on the tier's filter): counts
every matching record, independent of pagination. -/
def countMatching (store : List QRec) (f : Filter) : Nat :=
  (store.filter (filterMatches f)).length

/-- Primary-tier page: `find(query).sort(sort).skip(skip).limit(limit)`.
A zero limit means no limit (MongoDB semantics of `limit(0)`). -/
def primaryPage (store : List QRec) (f : Filter) (dir : SortDir) (skip limit : Nat) : List QRec :=
  let sorted := sortBy (sortLe dir) (store.filter (filterMatches f))
  let afterSkip := sorted.drop skip
  if limit ≠ 0 then afterSkip.take limit else afterSkip

/-- Archive-tier page (`queryArchiveSales` and its siblings): the skip and
limit stages are applied only when the numbers are truthy, so a zero limit
fetches every remaining matching record. -/
def archivePage (store : List QRec) (f : Filter) (dir : SortDir) (skip limit : Nat) : List QRec :=
  let sorted := sortBy (sortLe dir) (store.filter (filterMatches f))
  let afterSkip := if skip ≠ 0 then sorted.drop skip else sorted
  if limit ≠ 0 then afterSkip.take limit else afterSkip

/-- Result shape of a federated call. -/
structure UnifiedResult where
  data : List QRec
  total : Nat
  fromPrimary : Nat
  fromArchive : Nat
  primaryCount : Nat
  archiveCount : Nat
deriving Repr, DecidableEq

/-- Archive tier-selection decision of a federated call, from the extracted
range of the caller's raw filter. -/
def planArchive (extract : Filter → Option (Option Int × Option Int)) (T : Int) (q : Filter) : Bool :=
  shouldQueryArchive T (extractedStart (extract q)) (extractedEnd (extract q))

/-- Primary tier-selection decision of a federated call. -/
def planPrimary (extract : Filter → Option (Option Int × Option Int)) (T : Int) (q : Filter) : Bool :=
  shouldQueryPrimary T (extractedStart (extract q)) (extractedEnd (extract q))

/-- Common body of the three federated query functions.  Notably the caller's
raw filter is sent to both tiers unchanged (`splitQueryByDate` is never
invoked).  Per tier: on success the page and the tier-wide matched count; on
failure the catch block leaves the empty page and a zero count.  The archive
limit is `max(0, limit - fetchedFromPrimary)` and the archive skip collapses
to 0 when the primary page is not full.  Merged results are re-sorted (always
descending) and truncated to `limit` only when both tiers were selected. -/
def queryUnifiedCore (extract : Filter → Option (Option Int × Option Int))
    (T : Int) (hot cold : Tier) (query : Filter) (dir : SortDir)
    (skip limit : Nat) : UnifiedResult :=
  let queryArchive := planArchive extract T query
  let queryPrimary := planPrimary extract T query
  let primaryResults := if queryPrimary && hot.ok then primaryPage hot.data query dir skip limit else []
  let primaryCount := if queryPrimary && hot.ok then countMatching hot.data query else 0
  let archiveLimit := if queryPrimary then limit - primaryResults.length else limit
  let archiveSkip := if queryPrimary && decide (primaryResults.length < limit) then 0 else skip
  let archiveResults := if queryArchive && cold.ok then archivePage cold.data query dir archiveSkip archiveLimit else []
  let archiveCount := if queryArchive && cold.ok then countMatching cold.data query else 0
  let merged := primaryResults ++ archiveResults
  let finalData :=
    if queryArchive && queryPrimary && decide (0 < merged.length) then
      let sorted := sortBy mergeLe merged
      if decide (limit < sorted.length) then sorted.take limit else sorted
    else merged
  UnifiedResult.mk finalData (primaryCount + archiveCount)
    primaryResults.length archiveResults.length primaryCount archiveCount

/-- Extraction used by the sales kind: the `saleDate` sub-predicate only. -/
def extractForSales (f : Filter) : Option (Option Int × Option Int) :=
  extractDateRange f.date

/-- Extraction used by the payment and dealer-request kinds: the designated
field first, falling back to the `createdAt` sub-predicate only when the
designated field is absent from the filter. -/
def extractWithCreatedFallback (f : Filter) : Option (Option Int × Option Int) :=
  match extractDateRange f.date with
  | some p => some p
  | none => extractDateRange f.dateCreated

/-- Federated sales query (`queryUnifiedSales`). -/
def queryUnifiedSales : Int → Tier → Tier → Filter → SortDir → Nat → Nat → UnifiedResult :=
  queryUnifiedCore extractForSales

/-- Federated payments query (`queryUnifiedPayments`). -/
def queryUnifiedPayments : Int → Tier → Tier → Filter → SortDir → Nat → Nat → UnifiedResult :=
  queryUnifiedCore extractWithCreatedFallback

/-- Federated dealer-request query (`queryUnifiedDealerRequests`). -/
def queryUnifiedDealerRequests : Int → Tier → Tier → Filter → SortDir → Nat → Nat → UnifiedResult :=
  queryUnifiedCore extractWithCreatedFallback

/-- Cold-store sale record, restricted to its foreign-key fields (identifiers
into the shared reference data held by the hot store). -/
structure SaleRec where
  salesman : Option Nat
  dealer : Option Nat
  product : Option Nat
  shopkeeper : Option Nat
deriving Repr, DecidableEq

/-- Identifiers collected for the users batch lookup of the sales resolver:
both the `salesman` and the `dealer` reference paths feed one shared set. -/
def salesUserIds (populate : List String) (results : List SaleRec) : List Nat :=
  ((if populate.contains "salesman" then results.filterMap SaleRec.salesman else []) ++
   (if populate.contains "dealer" then results.filterMap SaleRec.dealer else [])).dedup

/-- Identifiers collected for the products batch lookup of the sales
resolver. -/
def salesProductIds (populate : List String) (results : List SaleRec) : List Nat :=
  (if populate.contains "product" then results.filterMap SaleRec.product else []).dedup

/-- Identifiers collected for the shopkeepers batch lookup of the sales
resolver. -/
def salesShopkeeperIds (populate : List String) (results : List SaleRec) : List Nat :=
  (if populate.contains "shopkeeper" then results.filterMap SaleRec.shopkeeper else []).dedup

/-- Number of reference-store queries issued by the sales resolver
(`queryArchiveSales`): after collecting distinct identifiers across the whole
batch it issues at most one batch lookup per referenced collection — users,
products, shopkeepers — each only when its identifier set is non-empty. -/
def salesResolveLookups (populate : List String) (results : List SaleRec) : Nat :=
  if populate ≠ [] ∧ results ≠ [] then
    (if salesUserIds populate results ≠ [] then 1 else 0) +
    (if salesProductIds populate results ≠ [] then 1 else 0) +
    (if salesShopkeeperIds populate results ≠ [] then 1 else 0)
  else 0

/-- Cold-store payment record, restricted to its foreign-key fields. -/
structure PayRec where
  dealer : Option Nat
  dealerRequest : Option Nat
  processedBy : Option Nat
deriving Repr, DecidableEq

/-- Referenced dealer-request entity, restricted to its own `product`
foreign key (the payments resolver chases it with a nested lookup). -/
structure DReq where
  product : Option Nat
deriving Repr, DecidableEq

/-- Number of point lookups issued by the payments resolver
(`queryArchivePayments`) for one record and one requested path: `findById`
when the path's field is present, plus a nested product `findById` when a
fetched dealer request carries a product. -/
def paymentPathLookups (db : Nat → Option DReq) (r : PayRec) (path : String) : Nat :=
  if path = "dealer" ∧ r.dealer.isSome then 1
  else if path = "dealerRequest" ∧ r.dealerRequest.isSome then
    1 + (match r.dealerRequest.bind db with
         | some dq => if dq.product.isSome then 1 else 0
         | none => 0)
  else if path = "processedBy" ∧ r.processedBy.isSome then 1
  else 0

/-- Number of reference-store queries issued by the payments resolver: a
nested loop over the fetched records and the requested paths, one point
lookup each — not a batch lookup per path. -/
def paymentsResolveLookups (db : Nat → Option DReq) (populate : List String)
    (results : List PayRec) : Nat :=
  if populate ≠ [] ∧ results ≠ [] then
    (results.map (fun r => (populate.map (paymentPathLookups db r)).sum)).sum
  else 0

/-- Cold-store dealer-request record, restricted to its foreign-key fields. -/
structure DRRec where
  dealer : Option Nat
  product : Option Nat
  processedBy : Option Nat
deriving Repr, DecidableEq

/-- Number of point lookups issued by the dealer-request resolver
(`queryArchiveDealerRequests`) for one record and one requested path. -/
def dealerRequestPathLookups (r : DRRec) (path : String) : Nat :=
  if path = "dealer" ∧ r.dealer.isSome then 1
  else if path = "product" ∧ r.product.isSome then 1
  else if path = "processedBy" ∧ r.processedBy.isSome then 1
  else 0

/-- Number of reference-store queries issued by the dealer-request resolver:
again one point lookup per record per matching path. -/
def dealerRequestsResolveLookups (populate : List String) (results : List DRRec) : Nat :=
  if populate ≠ [] ∧ results ≠ [] then
    (results.map (fun r => (populate.map (dealerRequestPathLookups r)).sum)).sum
  else 0

/-! Shared helper lemmas. -/

/-- Propositional characterization of the archive tier-selection predicate. -/
lemma shouldQueryArchive_iff (T : Int) (s e : Option Int) :
    shouldQueryArchive T s e = true ↔
      (s = none ∧ e = none) ∨ (∃ ev, e = some ev ∧ ev < T) ∨ (∃ sv, s = some sv ∧ sv < T) := by
  cases s <;> cases e <;> simp [shouldQueryArchive]

/-- Propositional characterization of the primary tier-selection predicate. -/
lemma shouldQueryPrimary_iff (T : Int) (s e : Option Int) :
    shouldQueryPrimary T s e = true ↔
      (s = none ∧ e = none) ∨ (∃ sv, s = some sv ∧ T ≤ sv) ∨ (∃ ev, e = some ev ∧ T ≤ ev) := by
  cases s <;> cases e <;> simp [shouldQueryPrimary]

/-- The ternary of the source picks the later of start and threshold. -/
lemma if_lt_eq_max (s T : Int) : (if s < T then T else s) = max s T := by
  rcases lt_or_le s T with h | h
  · simp [if_pos h, max_eq_right h.le]
  · simp [if_neg (not_lt.2 h), max_eq_left h]

/-- The ternary of the source picks the earlier of end and threshold. -/
lemma if_lt_eq_min (e T : Int) : (if e < T then e else T) = min e T := by
  rcases lt_or_le e T with h | h
  · simp [if_pos h, min_eq_left h.le]
  · simp [if_neg (not_lt.2 h), min_eq_right h]

/-- Shape of the split when the extracted range has both bounds and both
tiers are selected. -/
lemma splitQueryByDate_both (T : Int) (q : Filter) (s e : Int)
    (hex : extractDateRange q.date = some (some s, some e))
    (ha : shouldQueryArchive T (some s) (some e) = true)
    (hp : shouldQueryPrimary T (some s) (some e) = true) :
    splitQueryByDate T q =
      (Filter.mk (some (.range (DateBounds.mk (some (if s < T then T else s)) (some e) none none)))
         q.dateCreated q.other,
       Filter.mk (some (.range (DateBounds.mk (some s) none none (some (if e < T then e else T)))))
         q.dateCreated q.other,
       true) := by
  simp [splitQueryByDate, hex, extractedStart, extractedEnd, ha, hp]

/-! Claim theorems. -/

/-- C3: for every extracted `(start, end)` pair and threshold `T`, the cold
tier is selected iff both bounds are unset, or the end is set and below `T`,
or the start is set and below `T`; the hot tier is selected iff both bounds
are unset, or the start is set and at-or-above `T`, or the end is set and
at-or-above `T`. -/
theorem C3_tier_selection_iff (T : Int) (s e : Option Int) :
    (shouldQueryArchive T s e = true ↔
      (s = none ∧ e = none) ∨ (∃ ev, e = some ev ∧ ev < T) ∨ (∃ sv, s = some sv ∧ sv < T)) ∧
    (shouldQueryPrimary T s e = true ↔
      (s = none ∧ e = none) ∨ (∃ sv, s = some sv ∧ T ≤ sv) ∨ (∃ ev, e = some ev ∧ T ≤ ev)) :=
  ⟨shouldQueryArchive_iff T s e, shouldQueryPrimary_iff T s e⟩

/-- C9: for every extracted date range (any combination of set and unset
bounds) and every threshold, at least one of the two tiers is selected. -/
theorem C9_at_least_one_tier (T : Int) (s e : Option Int) :
    shouldQueryArchive T s e = true ∨ shouldQueryPrimary T s e = true := by
  rcases s with _ | sv <;> rcases e with _ | ev
  · exact Or.inl ((shouldQueryArchive_iff T none none).mpr (Or.inl ⟨rfl, rfl⟩))
  · rcases lt_or_le ev T with h | h
    · exact Or.inl ((shouldQueryArchive_iff T none (some ev)).mpr (Or.inr (Or.inl ⟨ev, rfl, h⟩)))
    · exact Or.inr ((shouldQueryPrimary_iff T none (some ev)).mpr (Or.inr (Or.inr ⟨ev, rfl, h⟩)))
  · rcases lt_or_le sv T with h | h
    · exact Or.inl ((shouldQueryArchive_iff T (some sv) none).mpr (Or.inr (Or.inr ⟨sv, rfl, h⟩)))
    · exact Or.inr ((shouldQueryPrimary_iff T (some sv) none).mpr (Or.inr (Or.inl ⟨sv, rfl, h⟩)))
  · rcases lt_or_le sv T with h | h
    · exact Or.inl ((shouldQueryArchive_iff T (some sv) (some ev)).mpr (Or.inr (Or.inr ⟨sv, rfl, h⟩)))
    · exact Or.inr ((shouldQueryPrimary_iff T (some sv) (some ev)).mpr (Or.inr (Or.inl ⟨sv, rfl, h⟩)))

/-- C1: when the extracted range has both bounds and both tiers are selected,
the split gives the hot sub-filter the inclusive lower bound
`max(start, threshold)` (hence at-or-above the threshold) together with the
original upper bound, and the cold sub-filter the strict upper bound
`min(end, threshold)` (hence strictly below the threshold), and no timestamp
satisfies both sub-ranges. -/
theorem C1_split_bounds_disjoint (T : Int) (q : Filter) (s e : Int)
    (hex : extractDateRange q.date = some (some s, some e))
    (ha : shouldQueryArchive T (some s) (some e) = true)
    (hp : shouldQueryPrimary T (some s) (some e) = true) :
    (splitQueryByDate T q).1.date =
      some (.range (DateBounds.mk (some (max s T)) (some e) none none)) ∧
    (splitQueryByDate T q).2.1.date =
      some (.range (DateBounds.mk (some s) none none (some (min e T)))) ∧
    T ≤ max s T ∧ min e T ≤ T ∧
    ∀ v : Int,
      ¬(boundsMatch (DateBounds.mk (some (max s T)) (some e) none none) v = true ∧
        boundsMatch (DateBounds.mk (some s) none none (some (min e T))) v = true) := by
  rw [splitQueryByDate_both T q s e hex ha hp]
  refine ⟨by simp [if_lt_eq_max], by simp [if_lt_eq_min], le_max_right s T, min_le_right e T, ?_⟩
  intro v hv
  have h1 := hv.1
  have h2 := hv.2
  simp only [boundsMatch, Bool.and_eq_true, decide_eq_true_eq, and_true, true_and] at h1 h2
  have hTv : T ≤ v := le_trans (le_max_right s T) h1.1
  have hvT : v < T := lt_of_lt_of_le h2.2 (min_le_right e T)
  omega

/-- Witness for C1 at `T = 0`, range `[-10, 10]`. -/
theorem C1_split_bounds_disjoint_witness :
    (splitQueryByDate 0 (Filter.mk
        (some (.range (DateBounds.mk (some (-10)) (some 10) none none))) none (fun _ => true))).1.date =
      some (.range (DateBounds.mk (some (max (-10) 0)) (some 10) none none)) ∧
    (splitQueryByDate 0 (Filter.mk
        (some (.range (DateBounds.mk (some (-10)) (some 10) none none))) none (fun _ => true))).2.1.date =
      some (.range (DateBounds.mk (some (-10)) none none (some (min 10 0)))) :=
  ⟨(C1_split_bounds_disjoint 0 (Filter.mk
        (some (.range (DateBounds.mk (some (-10)) (some 10) none none))) none (fun _ => true))
      (-10) 10 rfl (by decide) (by decide)).1,
   (C1_split_bounds_disjoint 0 (Filter.mk
        (some (.range (DateBounds.mk (some (-10)) (some 10) none none))) none (fun _ => true))
      (-10) 10 rfl (by decide) (by decide)).2.1⟩

/-- C2 counterexample: under the straddling filter `[-10, 10]` with threshold
`0`, a cold-store record timestamped exactly at the threshold is returned by
the federated sales query from the Cold tier (the hot store is empty, so the
one returned record can only have come from Cold, and `fromArchive = 1`).
The unified functions send the caller's raw filter to both tiers instead of
the split sub-filters, so the Cold page is not cut off strictly below the
threshold. -/
theorem C2_threshold_record_served_by_cold_counterexample :
    ((-10 : Int) < 0 ∧ (0 : Int) ≤ 10) ∧
    (queryUnifiedSales 0 (Tier.mk [] true) (Tier.mk [QRec.mk (some 0) 0 1] true)
        (Filter.mk (some (.range (DateBounds.mk (some (-10)) (some 10) none none))) none (fun _ => true))
        .desc 0 50).data = [QRec.mk (some 0) 0 1] ∧
    (queryUnifiedSales 0 (Tier.mk [] true) (Tier.mk [QRec.mk (some 0) 0 1] true)
        (Filter.mk (some (.range (DateBounds.mk (some (-10)) (some 10) none none))) none (fun _ => true))
        .desc 0 50).fromArchive = 1 ∧
    (queryUnifiedSales 0 (Tier.mk [] true) (Tier.mk [QRec.mk (some 0) 0 1] true)
        (Filter.mk (some (.range (DateBounds.mk (some (-10)) (some 10) none none))) none (fun _ => true))
        .desc 0 50).fromPrimary = 0 := by
  decide

/-- C2 amended: boundary ownership by Hot holds only at the level of
`splitQueryByDate`, which the unified query functions never invoke: for every
filter whose extracted range straddles the threshold (`start < T ≤ end`), the
cold sub-filter produced by the split never matches a timestamp equal to the
threshold, while the hot sub-filter does match it. -/
theorem C2_split_boundary_owned_by_hot (T : Int) (q : Filter) (s e : Int)
    (hex : extractDateRange q.date = some (some s, some e))
    (hs : s < T) (he : T ≤ e) :
    dateMatches (splitQueryByDate T q).2.1.date (some T) = false ∧
    dateMatches (splitQueryByDate T q).1.date (some T) = true := by
  have ha : shouldQueryArchive T (some s) (some e) = true :=
    (shouldQueryArchive_iff T (some s) (some e)).mpr (Or.inr (Or.inr ⟨s, rfl, hs⟩))
  have hp : shouldQueryPrimary T (some s) (some e) = true :=
    (shouldQueryPrimary_iff T (some s) (some e)).mpr (Or.inr (Or.inr ⟨e, rfl, he⟩))
  rw [splitQueryByDate_both T q s e hex ha hp]
  constructor
  · simp only [dateMatches, boundsMatch]
    simp [if_lt_eq_min, lt_min_iff]
  · simp only [dateMatches, boundsMatch]
    simp [if_lt_eq_max, hs.le, he, max_le_iff, le_refl]

/-- Witness for the amended C2 at `T = 0`, straddling range `[-10, 10]`. -/
theorem C2_split_boundary_owned_by_hot_witness :
    dateMatches (splitQueryByDate 0 (Filter.mk
        (some (.range (DateBounds.mk (some (-10)) (some 10) none none))) none (fun _ => true))).2.1.date
      (some 0) = false ∧
    dateMatches (splitQueryByDate 0 (Filter.mk
        (some (.range (DateBounds.mk (some (-10)) (some 10) none none))) none (fun _ => true))).1.date
      (some 0) = true :=
  C2_split_boundary_owned_by_hot 0 (Filter.mk
      (some (.range (DateBounds.mk (some (-10)) (some 10) none none))) none (fun _ => true))
    (-10) 10 rfl (by decide) (by decide)

/-- C7 counterexample: for the filter with strict lower bound `$gt -5` and
inclusive upper bound `$lte 10` at threshold `0`, the split emits a cold
sub-filter whose lower bound is the inclusive `$gte -5`: it matches the
timestamp `-5` even though the original filter excludes `-5`.  The strict
lower bound did not stay strict through the split. -/
theorem C7_exclusivity_preserved_counterexample :
    (splitQueryByDate 0 (Filter.mk
        (some (.range (DateBounds.mk none (some 10) (some (-5)) none))) none (fun _ => true))).2.1.date =
      some (.range (DateBounds.mk (some (-5)) none none (some 0))) ∧
    dateMatches (splitQueryByDate 0 (Filter.mk
        (some (.range (DateBounds.mk none (some 10) (some (-5)) none))) none (fun _ => true))).2.1.date
      (some (-5)) = true ∧
    dateMatches (some (DatePred.range (DateBounds.mk none (some 10) (some (-5)) none)))
      (some (-5)) = false := by
  decide

/-- C7 amended: `extractDateRange` collapses `$gt` into the plain start and
`$lt` into the plain end, discarding which operator was used; when both tiers
are selected, `splitQueryByDate` re-emits the bounds with a fixed operator
shape — inclusive `$gte` lower bounds on both sub-filters, inclusive `$lte`
upper on hot and strict `$lt` upper on cold — regardless of the original
operators' exclusivity.  The original operators survive only when no split
rewrites the range: the single selected tier then receives the caller's
filter verbatim. -/
theorem C7_split_emits_inclusive_bounds (T : Int) (q : Filter) (s e : Int)
    (hex : extractDateRange q.date = some (some s, some e)) :
    (shouldQueryArchive T (some s) (some e) = true →
     shouldQueryPrimary T (some s) (some e) = true →
      (splitQueryByDate T q).1.date =
        some (.range (DateBounds.mk (some (max s T)) (some e) none none)) ∧
      (splitQueryByDate T q).2.1.date =
        some (.range (DateBounds.mk (some s) none none (some (min e T))))) ∧
    (shouldQueryArchive T (some s) (some e) = true →
     shouldQueryPrimary T (some s) (some e) = false →
      (splitQueryByDate T q).2.1 = q ∧ (splitQueryByDate T q).1.date = none) ∧
    (shouldQueryArchive T (some s) (some e) = false →
      (splitQueryByDate T q).1 = q ∧ (splitQueryByDate T q).2.1.date = none) := by
  refine ⟨fun ha hp => ?_, fun ha hp => ?_, fun ha => ?_⟩
  · rw [splitQueryByDate_both T q s e hex ha hp]
    exact ⟨by simp [if_lt_eq_max], by simp [if_lt_eq_min]⟩
  · simp [splitQueryByDate, hex, extractedStart, extractedEnd, ha, hp]
  · simp [splitQueryByDate, hex, extractedStart, extractedEnd, ha]

/-- Witness for the amended C7: both-tier case at `T = 0` with the strict
lower bound `$gt -5`. -/
theorem C7_split_emits_inclusive_bounds_witness :
    (splitQueryByDate 0 (Filter.mk
        (some (.range (DateBounds.mk none (some 10) (some (-5)) none))) none (fun _ => true))).1.date =
      some (.range (DateBounds.mk (some (max (-5) 0)) (some 10) none none)) ∧
    (splitQueryByDate 0 (Filter.mk
        (some (.range (DateBounds.mk none (some 10) (some (-5)) none))) none (fun _ => true))).2.1.date =
      some (.range (DateBounds.mk (some (-5)) none none (some (min 10 0)))) :=
  (C7_split_emits_inclusive_bounds 0 (Filter.mk
      (some (.range (DateBounds.mk none (some 10) (some (-5)) none))) none (fun _ => true))
    (-5) 10 rfl).1 (by decide) (by decide)

/-- Empty stores yield empty archive pages. -/
lemma archivePage_nil (f : Filter) (dir : SortDir) (skip limit : Nat) :
    archivePage [] f dir skip limit = [] := by
  simp [archivePage, sortBy]

/-- Empty stores yield empty primary pages. -/
lemma primaryPage_nil (f : Filter) (dir : SortDir) (skip limit : Nat) :
    primaryPage [] f dir skip limit = [] := by
  simp [primaryPage, sortBy]

/-- Empty stores have a zero matched count. -/
lemma countMatching_nil (f : Filter) : countMatching [] f = 0 := rfl

/-- C4: for every federated call (all three record kinds share the call body
`queryUnifiedCore`, so the statement quantifies over the per-kind extraction
function), the total is the sum of the two per-tier matched counts — each
taken over every record of the tier matching that tier's filter (the raw
caller filter), with an unqueried tier contributing zero — and the total
does not depend on the skip and limit pagination parameters. -/
theorem C4_total_is_sum_of_counts (extract : Filter → Option (Option Int × Option Int))
    (T : Int) (hot cold : Tier) (q : Filter) (dir : SortDir)
    (skip limit skip2 limit2 : Nat) :
    (queryUnifiedCore extract T hot cold q dir skip limit).total
      = (queryUnifiedCore extract T hot cold q dir skip2 limit2).total ∧
    (hot.ok = true → cold.ok = true →
      (queryUnifiedCore extract T hot cold q dir skip limit).total =
        (if planPrimary extract T q then countMatching hot.data q else 0) +
        (if planArchive extract T q then countMatching cold.data q else 0)) := by
  constructor
  · rfl
  · intro hh hc
    simp [queryUnifiedCore, hh, hc]

/-- Witness for C4 on concrete two-record stores, comparing two different
paginations. -/
theorem C4_total_is_sum_of_counts_witness :
    (queryUnifiedSales 0 (Tier.mk [QRec.mk (some 10) 10 1] true)
        (Tier.mk [QRec.mk (some (-10)) (-10) 2] true)
        (Filter.mk (some (.range (DateBounds.mk (some (-20)) (some 20) none none))) none (fun _ => true))
        .desc 0 1).total
      = (queryUnifiedSales 0 (Tier.mk [QRec.mk (some 10) 10 1] true)
          (Tier.mk [QRec.mk (some (-10)) (-10) 2] true)
          (Filter.mk (some (.range (DateBounds.mk (some (-20)) (some 20) none none))) none (fun _ => true))
          .desc 3 7).total ∧
    (queryUnifiedSales 0 (Tier.mk [QRec.mk (some 10) 10 1] true)
        (Tier.mk [QRec.mk (some (-10)) (-10) 2] true)
        (Filter.mk (some (.range (DateBounds.mk (some (-20)) (some 20) none none))) none (fun _ => true))
        .desc 0 1).total =
      (if planPrimary extractForSales 0
          (Filter.mk (some (.range (DateBounds.mk (some (-20)) (some 20) none none))) none (fun _ => true))
        then countMatching [QRec.mk (some 10) 10 1]
          (Filter.mk (some (.range (DateBounds.mk (some (-20)) (some 20) none none))) none (fun _ => true)) else 0) +
      (if planArchive extractForSales 0
          (Filter.mk (some (.range (DateBounds.mk (some (-20)) (some 20) none none))) none (fun _ => true))
        then countMatching [QRec.mk (some (-10)) (-10) 2]
          (Filter.mk (some (.range (DateBounds.mk (some (-20)) (some 20) none none))) none (fun _ => true)) else 0) :=
  ⟨(C4_total_is_sum_of_counts extractForSales 0 (Tier.mk [QRec.mk (some 10) 10 1] true)
      (Tier.mk [QRec.mk (some (-10)) (-10) 2] true)
      (Filter.mk (some (.range (DateBounds.mk (some (-20)) (some 20) none none))) none (fun _ => true))
      .desc 0 1 3 7).1,
   (C4_total_is_sum_of_counts extractForSales 0 (Tier.mk [QRec.mk (some 10) 10 1] true)
      (Tier.mk [QRec.mk (some (-10)) (-10) 2] true)
      (Filter.mk (some (.range (DateBounds.mk (some (-20)) (some 20) none none))) none (fun _ => true))
      .desc 0 1 3 7).2 rfl rfl⟩

/-- C5: a tier whose store operations raise (modelled by the tier's
reachability flag: every operation of an unreachable or erroring tier fails
and is caught by that tier's catch block) contributes an empty page and a
zero matched count, the federated call still returns a result (the function
is total — no exception escapes), and the result is exactly the one obtained
against an empty healthy tier, so the other tier's contribution is
unaffected.  Stated over the shared call body `queryUnifiedCore` for every
per-kind extraction function, for Cold down (the claim's `fromArchive = 0`,
`archiveCount = 0` case) and symmetrically for Hot down. -/
theorem C5_tier_error_degrades_gracefully (extract : Filter → Option (Option Int × Option Int))
    (T : Int) (hotData coldData : List QRec)
    (q : Filter) (dir : SortDir) (skip limit : Nat) :
    (queryUnifiedCore extract T (Tier.mk hotData true) (Tier.mk coldData false) q dir skip limit
      = queryUnifiedCore extract T (Tier.mk hotData true) (Tier.mk [] true) q dir skip limit) ∧
    (queryUnifiedCore extract T (Tier.mk hotData true) (Tier.mk coldData false) q dir skip limit).fromArchive = 0 ∧
    (queryUnifiedCore extract T (Tier.mk hotData true) (Tier.mk coldData false) q dir skip limit).archiveCount = 0 ∧
    (queryUnifiedCore extract T (Tier.mk hotData false) (Tier.mk coldData true) q dir skip limit
      = queryUnifiedCore extract T (Tier.mk [] true) (Tier.mk coldData true) q dir skip limit) ∧
    (queryUnifiedCore extract T (Tier.mk hotData false) (Tier.mk coldData true) q dir skip limit).fromPrimary = 0 ∧
    (queryUnifiedCore extract T (Tier.mk hotData false) (Tier.mk coldData true) q dir skip limit).primaryCount = 0 := by
  refine ⟨?_, ?_, ?_, ?_, ?_, ?_⟩ <;>
    simp [queryUnifiedCore, archivePage_nil, primaryPage_nil, countMatching_nil]

/-- Merger written from the claim's words, for comparison with the code: when
both tiers were queried, concatenate the two tier pages, re-sort globally by
the designated timestamp field in the caller's requested direction, then
truncate to the caller's limit. -/
def mergerSpec (dir : SortDir) (limit : Nat) (hotPage coldPage : List QRec) : List QRec :=
  (sortBy (sortLe dir) (hotPage ++ coldPage)).take limit

/-- Merger written from the amended claim, for comparison with the code: the
global re-sort is always descending on the timestamp key (with `createdAt`
fallback) whatever direction the caller requested, and the truncation to the
limit is applied only when the merged list exceeds it. -/
def mergerDescSpec (limit : Nat) (pages : List QRec) : List QRec :=
  let sorted := sortBy mergeLe pages
  if limit < sorted.length then sorted.take limit else sorted

/-- C6 counterexample: with an ascending requested sort, a straddling filter
and one record per tier, the federated call returns the two records in
descending key order, while the claimed merger (re-sort in the requested,
ascending, direction) puts them in ascending order.  The two tier pages of
the call are exactly the two singleton pages used here. -/
theorem C6_merge_requested_direction_counterexample :
    (queryUnifiedSales 0 (Tier.mk [QRec.mk (some 10) 10 1] true)
        (Tier.mk [QRec.mk (some (-10)) (-10) 2] true)
        (Filter.mk (some (.range (DateBounds.mk (some (-20)) (some 20) none none))) none (fun _ => true))
        .asc 0 50).data = [QRec.mk (some 10) 10 1, QRec.mk (some (-10)) (-10) 2] ∧
    mergerSpec .asc 50
        (primaryPage [QRec.mk (some 10) 10 1]
          (Filter.mk (some (.range (DateBounds.mk (some (-20)) (some 20) none none))) none (fun _ => true))
          .asc 0 50)
        (archivePage [QRec.mk (some (-10)) (-10) 2]
          (Filter.mk (some (.range (DateBounds.mk (some (-20)) (some 20) none none))) none (fun _ => true))
          .asc 0 49) =
      [QRec.mk (some (-10)) (-10) 2, QRec.mk (some 10) 10 1] ∧
    ([QRec.mk (some 10) 10 1, QRec.mk (some (-10)) (-10) 2] : List QRec) ≠
      [QRec.mk (some (-10)) (-10) 2, QRec.mk (some 10) 10 1] := by
  decide

/-- C6 amended: when both tiers were queried the returned data is the
concatenation of the two tier pages re-sorted globally by the designated
timestamp key in DESCENDING order — regardless of the caller's requested
direction — and truncated to the caller's limit when it exceeds it; when only
one tier was queried that tier's page is returned unchanged.  Stated over the
shared call body `queryUnifiedCore` for every per-kind extraction function. -/
theorem C6_merge_descending_truncate (extract : Filter → Option (Option Int × Option Int))
    (T : Int) (hot cold : Tier) (q : Filter)
    (dir : SortDir) (skip limit : Nat)
    (hh : hot.ok = true) (hc : cold.ok = true) :
    (planPrimary extract T q = true → planArchive extract T q = true →
      (queryUnifiedCore extract T hot cold q dir skip limit).data =
        mergerDescSpec limit
          (primaryPage hot.data q dir skip limit ++
           archivePage cold.data q dir
             (if (primaryPage hot.data q dir skip limit).length < limit then 0 else skip)
             (limit - (primaryPage hot.data q dir skip limit).length))) ∧
    (planPrimary extract T q = true → planArchive extract T q = false →
      (queryUnifiedCore extract T hot cold q dir skip limit).data =
        primaryPage hot.data q dir skip limit) ∧
    (planArchive extract T q = true → planPrimary extract T q = false →
      (queryUnifiedCore extract T hot cold q dir skip limit).data =
        archivePage cold.data q dir skip limit) := by
  refine ⟨fun hp ha => ?_, fun hp ha => ?_, fun ha hp => ?_⟩
  · simp only [queryUnifiedCore, hp, ha, hh, hc, Bool.and_self,
      Bool.true_and, Bool.and_true, if_true, mergerDescSpec]
    rcases hmerged : primaryPage hot.data q dir skip limit ++
        archivePage cold.data q dir
          (if (primaryPage hot.data q dir skip limit).length < limit then 0 else skip)
          (limit - (primaryPage hot.data q dir skip limit).length) with _ | ⟨r, rest⟩
    · simp [hmerged, sortBy]
    · simp [hmerged]
  · simp [queryUnifiedCore, hp, ha, hh, hc]
  · simp [queryUnifiedCore, hp, ha, hh, hc]

/-- Witness for the amended C6: both-tier case with an ascending requested
sort at `T = 0`, limit `50`. -/
theorem C6_merge_descending_truncate_witness :
    (queryUnifiedSales 0 (Tier.mk [QRec.mk (some 10) 10 1] true)
        (Tier.mk [QRec.mk (some (-10)) (-10) 2] true)
        (Filter.mk (some (.range (DateBounds.mk (some (-20)) (some 20) none none))) none (fun _ => true))
        .asc 0 50).data =
      mergerDescSpec 50
        (primaryPage [QRec.mk (some 10) 10 1]
          (Filter.mk (some (.range (DateBounds.mk (some (-20)) (some 20) none none))) none (fun _ => true))
          .asc 0 50 ++
         archivePage [QRec.mk (some (-10)) (-10) 2]
          (Filter.mk (some (.range (DateBounds.mk (some (-20)) (some 20) none none))) none (fun _ => true))
          .asc
          (if (primaryPage [QRec.mk (some 10) 10 1]
            (Filter.mk (some (.range (DateBounds.mk (some (-20)) (some 20) none none))) none (fun _ => true))
            .asc 0 50).length < 50 then 0 else 0)
          (50 - (primaryPage [QRec.mk (some 10) 10 1]
            (Filter.mk (some (.range (DateBounds.mk (some (-20)) (some 20) none none))) none (fun _ => true))
            .asc 0 50).length)) :=
  (C6_merge_descending_truncate extractForSales 0 (Tier.mk [QRec.mk (some 10) 10 1] true)
      (Tier.mk [QRec.mk (some (-10)) (-10) 2] true)
      (Filter.mk (some (.range (DateBounds.mk (some (-20)) (some 20) none none))) none (fun _ => true))
      .asc 0 50 rfl rfl).1 (by decide) (by decide)

/-- Per-record sum of the payments resolver when the only requested path is
`dealer` and every record carries a dealer: one point lookup per record. -/
lemma payments_dealer_sum (db : Nat → Option DReq) (results : List PayRec)
    (h : ∀ r ∈ results, r.dealer.isSome = true) :
    (results.map (fun r => (List.map (paymentPathLookups db r) ["dealer"]).sum)).sum
      = results.length := by
  induction results with
  | nil => simp
  | cons r rs ih =>
    have hr : r.dealer.isSome = true := h r (List.mem_cons_self r rs)
    have hrs : ∀ x ∈ rs, x.dealer.isSome = true := fun x hx => h x (List.mem_cons_of_mem r hx)
    have hone : paymentPathLookups db r "dealer" = 1 := by simp [paymentPathLookups, hr]
    have ih2 := ih hrs
    simp only [List.map_cons, List.sum_cons, List.map_nil, List.sum_nil, Nat.add_zero] at ih2 ⊢
    rw [hone, ih2, List.length_cons, Nat.add_comm]

/-- C8 counterexample: a batch of two cold payment records with one requested
reference path (`dealer`) makes the payments resolver issue two point lookups,
not the claimed single batch lookup per path. -/
theorem C8_one_batch_lookup_per_path_counterexample :
    paymentsResolveLookups (fun _ => none) ["dealer"]
        [PayRec.mk (some 1) none none, PayRec.mk (some 2) none none] = 2 ∧
    (["dealer"] : List String).length = 1 ∧ (2 : Nat) ≠ 1 := by
  decide

/-- C8 amended: batched reference resolution holds for the sale kind only,
and there per referenced collection rather than per path (the `salesman` and
`dealer` paths share one users lookup): the sales resolver issues at most
three batch lookups however large the batch and however many paths are
requested.  The payment (and dealer-request) resolvers instead run a nested
loop issuing one point lookup per record per requested present path — for the
`dealer` path over a batch of N records, exactly N lookups. -/
theorem C8_sales_batched_payments_per_record :
    (∀ (populate : List String) (results : List SaleRec),
        salesResolveLookups populate results ≤ 3) ∧
    (∀ (db : Nat → Option DReq) (results : List PayRec),
        (∀ r ∈ results, r.dealer.isSome = true) →
        paymentsResolveLookups db ["dealer"] results = results.length) := by
  constructor
  · intro populate results
    unfold salesResolveLookups
    split
    · split <;> split <;> split <;> omega
    · omega
  · intro db results h
    rcases results with _ | ⟨r, rs⟩
    · simp [paymentsResolveLookups]
    · unfold paymentsResolveLookups
      rw [if_pos ⟨by simp, by simp⟩]
      exact payments_dealer_sum db (r :: rs) h

/-- Witness for the amended C8: a one-record sales batch and a one-record
payments batch. -/
theorem C8_sales_batched_payments_per_record_witness :
    salesResolveLookups ["product"] [SaleRec.mk none none (some 3) none] ≤ 3 ∧
    paymentsResolveLookups (fun _ => none) ["dealer"] [PayRec.mk (some 1) none none] = 1 :=
  ⟨C8_sales_batched_payments_per_record.1 ["product"] [SaleRec.mk none none (some 3) none],
   C8_sales_batched_payments_per_record.2 (fun _ => none) [PayRec.mk (some 1) none none] (by decide)⟩

/-- Insertion grows the length by one. -/
lemma length_insertBy (le : α → α → Bool) (a : α) (l : List α) :
    (insertBy le a l).length = l.length + 1 := by
  induction l with
  | nil => rfl
  | cons b bs ih =>
    simp only [insertBy]
    split
    · simp
    · simp [ih]

/-- Sorting preserves the length. -/
lemma length_sortBy (le : α → α → Bool) (l : List α) :
    (sortBy le l).length = l.length := by
  induction l with
  | nil => rfl
  | cons a l ih => simp [sortBy, length_insertBy, ih]

/-- Length of a primary-tier page. -/
lemma primaryPage_length (store : List QRec) (f : Filter) (dir : SortDir) (skip limit : Nat) :
    (primaryPage store f dir skip limit).length =
      if limit ≠ 0 then min limit (countMatching store f - skip)
      else countMatching store f - skip := by
  unfold primaryPage countMatching
  split <;> simp [List.length_take, List.length_drop, length_sortBy]

/-- Length of an archive-tier page when the limit argument is zero: the falsy
limit stage is skipped, so every matching record after the skip is fetched. -/
lemma archivePage_length_nolimit (store : List QRec) (f : Filter) (dir : SortDir) (skip : Nat) :
    (archivePage store f dir skip 0).length = countMatching store f - skip := by
  rcases Nat.eq_zero_or_pos skip with h | h
  · subst h
    simp [archivePage, countMatching, length_sortBy]
  · have hs : skip ≠ 0 := Nat.pos_iff_ne_zero.mp h
    simp [archivePage, countMatching, length_sortBy, hs, List.length_drop]

/-- C10: when both tiers are queried and the hot page comes back full
(`skip + limit` at most the hot matched count, with a positive limit), the
federated call reports `fromPrimary = limit` and `fromArchive` equal to the
number of ALL matching cold records after the skip — the cold limit
`max(0, limit - fetched)` is `0`, which the archive executor treats as no
limit at all — while the returned data is still truncated to `limit`
records; so as soon as any cold record matches past the skip,
`fromPrimary + fromArchive` exceeds the length of `data`.  Stated over the
shared call body `queryUnifiedCore` for every per-kind extraction function. -/
theorem C10_fetched_counts_exceed_page (extract : Filter → Option (Option Int × Option Int))
    (T : Int) (hot cold : Tier) (q : Filter)
    (dir : SortDir) (skip limit : Nat)
    (hh : hot.ok = true) (hc : cold.ok = true)
    (hp : planPrimary extract T q = true)
    (ha : planArchive extract T q = true)
    (hlim : 0 < limit)
    (hfull : skip + limit ≤ countMatching hot.data q) :
    (queryUnifiedCore extract T hot cold q dir skip limit).fromPrimary = limit ∧
    (queryUnifiedCore extract T hot cold q dir skip limit).fromArchive
      = countMatching cold.data q - skip ∧
    (queryUnifiedCore extract T hot cold q dir skip limit).data.length ≤ limit ∧
    (skip < countMatching cold.data q →
      (queryUnifiedCore extract T hot cold q dir skip limit).data.length <
        (queryUnifiedCore extract T hot cold q dir skip limit).fromPrimary +
          (queryUnifiedCore extract T hot cold q dir skip limit).fromArchive) := by
  have hlz : limit ≠ 0 := Nat.pos_iff_ne_zero.mp hlim
  have hplen : (primaryPage hot.data q dir skip limit).length = limit := by
    rw [primaryPage_length, if_pos hlz]
    have hle : limit ≤ countMatching hot.data q - skip := by omega
    exact Nat.min_eq_left hle
  have h1 : (queryUnifiedCore extract T hot cold q dir skip limit).fromPrimary = limit := by
    simp [queryUnifiedCore, hp, ha, hh, hc, hplen]
  have h2 : (queryUnifiedCore extract T hot cold q dir skip limit).fromArchive
      = countMatching cold.data q - skip := by
    simp [queryUnifiedCore, hp, ha, hh, hc, hplen, archivePage_length_nolimit]
  have hdlen : (queryUnifiedCore extract T hot cold q dir skip limit).data.length = limit := by
    simp only [queryUnifiedCore, hp, ha, hh, hc, Bool.and_self, Bool.true_and,
      Bool.and_true, if_true, hplen]
    have hsk : (if decide (limit < limit) = true then 0 else skip) = skip := by simp
    rw [hsk, Nat.sub_self]
    simp only [decide_eq_true_eq]
    have hmlen : (primaryPage hot.data q dir skip limit ++
        archivePage cold.data q dir skip 0).length
        = limit + (countMatching cold.data q - skip) := by
      simp [List.length_append, hplen, archivePage_length_nolimit]
    have hpos : 0 < (primaryPage hot.data q dir skip limit ++
        archivePage cold.data q dir skip 0).length := by
      omega
    rw [if_pos hpos]
    rcases lt_or_le limit (sortBy mergeLe (primaryPage hot.data q dir skip limit ++
        archivePage cold.data q dir skip 0)).length with hlt | hle
    · rw [if_pos hlt, List.length_take]
      exact Nat.min_eq_left hlt.le
    · rw [if_neg (not_lt.2 hle), length_sortBy]
      rw [length_sortBy] at hle
      omega
  refine ⟨h1, h2, le_of_eq hdlen, fun hcs => ?_⟩
  rw [hdlen, h1, h2]
  omega

/-- Witness for C10: one matching record per tier, limit `1`, skip `0` — the
call returns one data record but reports one fetched record from each tier. -/
theorem C10_fetched_counts_exceed_page_witness :
    (queryUnifiedSales 0 (Tier.mk [QRec.mk (some 5) 5 1] true)
        (Tier.mk [QRec.mk (some (-5)) (-5) 2] true)
        (Filter.mk (some (.range (DateBounds.mk (some (-20)) (some 20) none none))) none (fun _ => true))
        .desc 0 1).fromPrimary = 1 ∧
    (queryUnifiedSales 0 (Tier.mk [QRec.mk (some 5) 5 1] true)
        (Tier.mk [QRec.mk (some (-5)) (-5) 2] true)
        (Filter.mk (some (.range (DateBounds.mk (some (-20)) (some 20) none none))) none (fun _ => true))
        .desc 0 1).fromArchive =
      countMatching [QRec.mk (some (-5)) (-5) 2]
        (Filter.mk (some (.range (DateBounds.mk (some (-20)) (some 20) none none))) none (fun _ => true)) - 0 ∧
    (queryUnifiedSales 0 (Tier.mk [QRec.mk (some 5) 5 1] true)
        (Tier.mk [QRec.mk (some (-5)) (-5) 2] true)
        (Filter.mk (some (.range (DateBounds.mk (some (-20)) (some 20) none none))) none (fun _ => true))
        .desc 0 1).data.length <
      (queryUnifiedSales 0 (Tier.mk [QRec.mk (some 5) 5 1] true)
        (Tier.mk [QRec.mk (some (-5)) (-5) 2] true)
        (Filter.mk (some (.range (DateBounds.mk (some (-20)) (some 20) none none))) none (fun _ => true))
        .desc 0 1).fromPrimary +
      (queryUnifiedSales 0 (Tier.mk [QRec.mk (some 5) 5 1] true)
        (Tier.mk [QRec.mk (some (-5)) (-5) 2] true)
        (Filter.mk (some (.range (DateBounds.mk (some (-20)) (some 20) none none))) none (fun _ => true))
        .desc 0 1).fromArchive :=
  ⟨(C10_fetched_counts_exceed_page extractForSales 0 (Tier.mk [QRec.mk (some 5) 5 1] true)
      (Tier.mk [QRec.mk (some (-5)) (-5) 2] true)
      (Filter.mk (some (.range (DateBounds.mk (some (-20)) (some 20) none none))) none (fun _ => true))
      .desc 0 1 rfl rfl (by decide) (by decide) (by decide) (by decide)).1,
   (C10_fetched_counts_exceed_page extractForSales 0 (Tier.mk [QRec.mk (some 5) 5 1] true)
      (Tier.mk [QRec.mk (some (-5)) (-5) 2] true)
      (Filter.mk (some (.range (DateBounds.mk (some (-20)) (some 20) none none))) none (fun _ => true))
      .desc 0 1 rfl rfl (by decide) (by decide) (by decide) (by decide)).2.1,
   (C10_fetched_counts_exceed_page extractForSales 0 (Tier.mk [QRec.mk (some 5) 5 1] true)
      (Tier.mk [QRec.mk (some (-5)) (-5) 2] true)
      (Filter.mk (some (.range (DateBounds.mk (some (-20)) (some 20) none none))) none (fun _ => true))
      .desc 0 1 rfl rfl (by decide) (by decide) (by decide) (by decide)).2.2.2 (by decide)⟩

end UnifiedQuery
